import Mathlib

/-!
Verification of the ADS-B ATC simulator core (`adsb_atc` package).

The Python source is shallowly embedded over exact rationals: every float
value of the program is modelled as a `ℚ` (IEEE doubles are rationals), and
the transcendental float library calls (`math.cos`, `math.sin`, `math.atan2`,
`math.sqrt`, `math.hypot`, `math.radians`, `math.degrees`, float `**`) are
abstracted as an explicit `PyMath` parameter, since exact reals have no
computable embedding; every theorem below is proved for an arbitrary such
parameter, so each holds in particular for the concrete float library.
Random draws (`random.uniform`, `random.choice`) are passed as explicit
arguments, with the bounds the library guarantees as hypotheses.
-/

set_option linter.unusedVariables false

namespace AdsbAtc

/-! ## utils.py -/

/-- `int(x)` on a Python float: truncation toward zero. -/
def pyTrunc (x : ℚ) : ℤ := if 0 ≤ x then ⌊x⌋ else -⌊-x⌋

/-- Python float `x % m` (floored modulus, used with `m = 360`). -/
def pymod (x m : ℚ) : ℚ := x - m * ⌊x / m⌋

/-- utils.py line 63: southern edge of the map region. -/
def MAP_LAT_MIN : ℚ := 30
/-- utils.py line 63. -/
def MAP_LAT_MAX : ℚ := 60
/-- utils.py line 64. -/
def MAP_LON_MIN : ℚ := -20
/-- utils.py line 64. -/
def MAP_LON_MAX : ℚ := 40

/-- utils.py lines 67-75: `geo_to_grid(lat, lon, rows, cols)`. -/
def geo_to_grid (lat lon : ℚ) (rows cols : ℤ) : ℤ × ℤ :=
  let lat := max MAP_LAT_MIN (min MAP_LAT_MAX lat)
  let lon := max MAP_LON_MIN (min MAP_LON_MAX lon)
  let yf := (MAP_LAT_MAX - lat) / (MAP_LAT_MAX - MAP_LAT_MIN)
  let xf := (lon - MAP_LON_MIN) / (MAP_LON_MAX - MAP_LON_MIN)
  let y := pyTrunc (yf * ((rows : ℚ) - 2)) + 1
  let x := pyTrunc (xf * ((cols : ℚ) - 2)) + 1
  (y, x)

/-! ## app.py: the fractional-rate accumulator (lines 212-216 of `_tick`) -/

/-- One tick of the scheduler: from the carry before the tick, the number of
flights advanced this tick and the carry after the tick.  Mirrors
`_event_carry += rate * tick_interval; events = int(_event_carry);
_event_carry -= events; if events == 0 and rate > 0: events = 1`. -/
def schedStep (rate tick carry : ℚ) : ℤ × ℚ :=
  let c := carry + rate * tick
  let events := pyTrunc c
  let carry2 := c - events
  let events2 := if events = 0 ∧ 0 < rate then 1 else events
  (events2, carry2)

/-- Carry after `n` ticks, starting from `_event_carry = 0.0` (app.py line 76). -/
def carryAfter (rate tick : ℚ) : ℕ → ℚ
  | 0 => 0
  | n + 1 => (schedStep rate tick (carryAfter rate tick n)).2

/-- Number of flights advanced on the (0-indexed) tick `n` of an unpaused run. -/
def eventsOnTick (rate tick : ℚ) (n : ℕ) : ℤ :=
  (schedStep rate tick (carryAfter rate tick n)).1

/-! ## app.py: flight selection in the advancement loop (lines 223-252)

`for i in range(events_this_tick): fl = self.flights[(self.emitted + i) % len(self.flights)]`
where `_save_event` (lines 188-190), called once at the end of each loop
iteration, increments `self.emitted`.  `advLoop n emitted i rem` returns the
list of selected flight indices for the remaining `rem` iterations. -/
def advLoop (n : ℕ) : ℕ → ℕ → ℕ → List ℕ
  | _emitted, _i, 0 => []
  | emitted, i, rem + 1 => ((emitted + i) % n) :: advLoop n (emitted + 1) (i + 1) rem

/-- The flight indices advanced during one tick that processes `k` events,
with `emitted = e0` when the tick starts. -/
def tickSelections (n e0 k : ℕ) : List ℕ := advLoop n e0 0 k

/-! ## Claim C1 -/

/-- C1 (code bug evidence): with 2 flights and 2 advancement opportunities in a
tick (rate 20, tick period 0.1 s) starting from `emitted = 0`, the loop selects
flight 0 twice and never selects flight 1, because `_save_event` increments
`emitted` inside the very loop that also adds the loop index `i` to it.  The
round-robin property of the spec (each flight exactly once per `n` consecutive
opportunities) fails on this window. -/
theorem c1_roundRobin_code_bug :
    tickSelections 2 0 2 = [0, 0] ∧ 1 ∉ tickSelections 2 0 2 := by
  decide

/-! ## Claim C2 -/

lemma pyTrunc_eq_floor {x : ℚ} (hx : 0 ≤ x) : pyTrunc x = ⌊x⌋ := by
  simp [pyTrunc, hx]

/-- Truncating `f * m` for a fraction `f ∈ [0, 1]` and `0 ≤ m` lands in `[0, m]`. -/
lemma trunc_scaled_range (f : ℚ) (m : ℤ) (hf0 : 0 ≤ f) (hf1 : f ≤ 1) (hm : 0 ≤ m) :
    0 ≤ pyTrunc (f * (m : ℚ)) ∧ pyTrunc (f * (m : ℚ)) ≤ m := by
  have hq0 : 0 ≤ f * (m : ℚ) := mul_nonneg hf0 (by exact_mod_cast hm)
  rw [pyTrunc_eq_floor hq0]
  constructor
  · exact Int.floor_nonneg.mpr hq0
  · have hqm : f * (m : ℚ) ≤ (m : ℚ) :=
      mul_le_of_le_one_left (by exact_mod_cast hm) hf1
    calc ⌊f * (m : ℚ)⌋ ≤ ⌊(m : ℚ)⌋ := Int.floor_le_floor hqm
    _ = m := Int.floor_intCast m

/-- Truncating `f * m` for a fraction strictly below 1 and `0 < m` stays
strictly below `m`. -/
lemma trunc_scaled_lt (f : ℚ) (m : ℤ) (hf0 : 0 ≤ f) (hf1 : f < 1) (hm : 0 < m) :
    pyTrunc (f * (m : ℚ)) ≤ m - 1 := by
  have hq0 : 0 ≤ f * (m : ℚ) := mul_nonneg hf0 (by exact_mod_cast hm.le)
  rw [pyTrunc_eq_floor hq0]
  have hlt : f * (m : ℚ) < (m : ℚ) :=
    mul_lt_of_lt_one_left (by exact_mod_cast hm) hf1
  have := Int.floor_lt.mpr hlt
  omega

lemma pyTrunc_intCast (z : ℤ) : pyTrunc ((z : ℚ)) = z := by
  unfold pyTrunc
  split
  · exact Int.floor_intCast z
  · rw [show -((z : ℚ)) = ((-z : ℤ) : ℚ) by push_cast; ring, Int.floor_intCast]
    ring

/-- C2 counterexample: at the clamped south/east boundary the computed cell is
`(rows-1, cols-1)`, outside the claimed range `[1, rows-2] × [1, cols-2]`.
Here `rows = cols = 3`, `lat = 30`, `lon = 40` give `(2, 2)` while the claim
demands both components `≤ 1`. -/
theorem c2_range_counterexample :
    geo_to_grid 30 40 3 3 = (2, 2) ∧ ¬ (geo_to_grid 30 40 3 3).1 ≤ (3 : ℤ) - 2 := by
  have h : geo_to_grid 30 40 3 3 = (2, 2) := by
    simp only [geo_to_grid, MAP_LAT_MIN, MAP_LAT_MAX, MAP_LON_MIN, MAP_LON_MAX]
    norm_num [pyTrunc, Prod.ext_iff]
  refine ⟨h, ?_⟩
  rw [h]
  decide

/-- C2 (amended): for every input (clamping makes the function total) and every
grid with `rows >= 3`, `cols >= 3`, the result satisfies `row` in `[1, rows-1]`
and `col` in `[1, cols-1]`; moreover `row = rows-1` holds exactly when
`lat <= MAP_LAT_MIN` (the clamped southern boundary) and `col = cols-1` exactly
when `lon >= MAP_LON_MAX` (the clamped eastern boundary), so the originally
claimed range `[1, rows-2] x [1, cols-2]` holds at every non-boundary input. -/
theorem c2_to_grid_range_amended (lat lon : ℚ) (rows cols : ℤ)
    (hr : 3 ≤ rows) (hc : 3 ≤ cols) :
    1 ≤ (geo_to_grid lat lon rows cols).1 ∧
    (geo_to_grid lat lon rows cols).1 ≤ rows - 1 ∧
    1 ≤ (geo_to_grid lat lon rows cols).2 ∧
    (geo_to_grid lat lon rows cols).2 ≤ cols - 1 ∧
    (MAP_LAT_MIN < lat → (geo_to_grid lat lon rows cols).1 ≤ rows - 2) ∧
    (lat ≤ MAP_LAT_MIN → (geo_to_grid lat lon rows cols).1 = rows - 1) ∧
    (lon < MAP_LON_MAX → (geo_to_grid lat lon rows cols).2 ≤ cols - 2) ∧
    (MAP_LON_MAX ≤ lon → (geo_to_grid lat lon rows cols).2 = cols - 1) := by
  have e1 : (geo_to_grid lat lon rows cols).1 =
      pyTrunc ((60 - max 30 (min 60 lat)) / (60 - 30) * ((rows : ℚ) - 2)) + 1 := rfl
  have e2 : (geo_to_grid lat lon rows cols).2 =
      pyTrunc ((max (-20) (min 40 lon) - (-20)) / (40 - (-20)) * ((cols : ℚ) - 2)) + 1 := rfl
  have hlat1 : (30 : ℚ) ≤ max 30 (min 60 lat) := le_max_left _ _
  have hlat2 : max (30 : ℚ) (min 60 lat) ≤ 60 := max_le (by norm_num) (min_le_left _ _)
  have hlon1 : (-20 : ℚ) ≤ max (-20) (min 40 lon) := le_max_left _ _
  have hlon2 : max (-20 : ℚ) (min 40 lon) ≤ 40 := max_le (by norm_num) (min_le_left _ _)
  have hyf0 : 0 ≤ (60 - max 30 (min 60 lat)) / ((60 : ℚ) - 30) :=
    div_nonneg (by linarith) (by norm_num)
  have hyf1 : (60 - max 30 (min 60 lat)) / ((60 : ℚ) - 30) ≤ 1 := by
    rw [div_le_one (by norm_num)]
    linarith
  have hxf0 : 0 ≤ (max (-20) (min 40 lon) - (-20)) / ((40 : ℚ) - (-20)) :=
    div_nonneg (by linarith) (by norm_num)
  have hxf1 : (max (-20) (min 40 lon) - (-20)) / ((40 : ℚ) - (-20)) ≤ 1 := by
    rw [div_le_one (by norm_num)]
    linarith
  have hrm : (0 : ℤ) ≤ rows - 2 := by omega
  have hcm : (0 : ℤ) ≤ cols - 2 := by omega
  have hycast : ((rows - 2 : ℤ) : ℚ) = (rows : ℚ) - 2 := by push_cast; ring
  have hxcast : ((cols - 2 : ℤ) : ℚ) = (cols : ℚ) - 2 := by push_cast; ring
  have hy := trunc_scaled_range _ (rows - 2) hyf0 hyf1 hrm
  have hx := trunc_scaled_range _ (cols - 2) hxf0 hxf1 hcm
  rw [hycast] at hy
  rw [hxcast] at hx
  obtain ⟨hy1, hy2⟩ := hy
  obtain ⟨hx1, hx2⟩ := hx
  refine ⟨?_, ?_, ?_, ?_, ?_, ?_, ?_, ?_⟩
  · rw [e1]; omega
  · rw [e1]; omega
  · rw [e2]; omega
  · rw [e2]; omega
  · intro hlt
    have h30 : (30 : ℚ) < lat := hlt
    have hclt : (30 : ℚ) < max 30 (min 60 lat) :=
      lt_of_lt_of_le (lt_min (by norm_num) h30) (le_max_right _ _)
    have hyflt : (60 - max 30 (min 60 lat)) / ((60 : ℚ) - 30) < 1 := by
      rw [div_lt_one (by norm_num)]
      linarith
    have hlt2 := trunc_scaled_lt _ (rows - 2) hyf0 hyflt (by omega)
    rw [hycast] at hlt2
    rw [e1]
    omega
  · intro hle
    have h30 : lat ≤ (30 : ℚ) := hle
    have hmin : min (60 : ℚ) lat = lat := min_eq_right (by linarith)
    have hmax : max (30 : ℚ) lat = 30 := max_eq_left h30
    have hq : ((60 : ℚ) - 30) / (60 - 30) * ((rows : ℚ) - 2) = ((rows - 2 : ℤ) : ℚ) := by
      rw [hycast]
      norm_num
    rw [e1, hmin, hmax, hq, pyTrunc_intCast]
    omega
  · intro hlt
    have h40 : lon < (40 : ℚ) := hlt
    have hclt : max (-20 : ℚ) (min 40 lon) < 40 :=
      max_lt (by norm_num) (lt_of_le_of_lt (min_le_right _ _) h40)
    have hxflt : (max (-20) (min 40 lon) - (-20)) / ((40 : ℚ) - (-20)) < 1 := by
      rw [div_lt_one (by norm_num)]
      linarith
    have hlt2 := trunc_scaled_lt _ (cols - 2) hxf0 hxflt (by omega)
    rw [hxcast] at hlt2
    rw [e2]
    omega
  · intro hge
    have h40 : (40 : ℚ) ≤ lon := hge
    have hmin : min (40 : ℚ) lon = 40 := min_eq_left h40
    have hmax : max (-20 : ℚ) (40 : ℚ) = 40 := by norm_num
    have hq : ((40 : ℚ) - (-20)) / (40 - (-20)) * ((cols : ℚ) - 2) = ((cols - 2 : ℤ) : ℚ) := by
      rw [hxcast]
      norm_num
    rw [e2, hmin, hmax, hq, pyTrunc_intCast]
    omega

/-- C2 witness: a far out-of-range coordinate on a 5 x 7 grid, exercising both
the interior-row and boundary-column cases. -/
theorem c2_to_grid_range_witness :
    1 ≤ (geo_to_grid 100 (-999) 5 7).1 ∧
    (geo_to_grid 100 (-999) 5 7).1 ≤ 5 - 1 ∧
    1 ≤ (geo_to_grid 100 (-999) 5 7).2 ∧
    (geo_to_grid 100 (-999) 5 7).2 ≤ 7 - 1 ∧
    (MAP_LAT_MIN < 100 → (geo_to_grid 100 (-999) 5 7).1 ≤ 5 - 2) ∧
    ((100 : ℚ) ≤ MAP_LAT_MIN → (geo_to_grid 100 (-999) 5 7).1 = 5 - 1) ∧
    ((-999 : ℚ) < MAP_LON_MAX → (geo_to_grid 100 (-999) 5 7).2 ≤ 7 - 2) ∧
    (MAP_LON_MAX ≤ -999 → (geo_to_grid 100 (-999) 5 7).2 = 7 - 1) :=
  c2_to_grid_range_amended 100 (-999) 5 7 (by decide) (by decide)

/-! ## Claim C4 -/

lemma schedStep_rate10 : schedStep 10 (1 / 10) 0 = (1, 0) := by
  have h1 : (0 : ℚ) + 10 * (1 / 10) = 1 := by norm_num
  simp only [schedStep, h1]
  norm_num [pyTrunc]

lemma carryAfter_rate10_zero (n : ℕ) : carryAfter 10 (1 / 10) n = 0 := by
  induction n with
  | zero => rfl
  | succ n ih =>
      show (schedStep 10 (1 / 10) (carryAfter 10 (1 / 10) n)).2 = 0
      rw [ih, schedStep_rate10]

/-- C4: with `rate = 10` events/second and tick period `0.1 s` (so
`rate * tick_period = 1` exactly, also as an IEEE double), starting from the
initial carry `0.0`, the accumulator-based scheduler advances exactly 1 flight
on every tick of an unpaused run, and hence exactly 100 over any 100-tick
window. -/
theorem c4_rate10_exact (n m : ℕ) :
    eventsOnTick 10 (1 / 10) n = 1 ∧
    (Finset.range 100).sum (fun t => eventsOnTick 10 (1 / 10) (m + t)) = 100 := by
  have h1 : ∀ k, eventsOnTick 10 (1 / 10) k = 1 := by
    intro k
    show (schedStep 10 (1 / 10) (carryAfter 10 (1 / 10) k)).1 = 1
    rw [carryAfter_rate10_zero, schedStep_rate10]
  refine ⟨h1 n, ?_⟩
  have hterm : ∀ t ∈ Finset.range 100, eventsOnTick 10 (1 / 10) (m + t) = 1 := by
    intro t _
    exact h1 (m + t)
  rw [Finset.sum_congr rfl hterm]
  simp

/-! ## model.py: the flight state and its kinematics step -/

/-- The float math library (`math.cos`, `math.sin`, `math.atan2`, `math.sqrt`,
`math.hypot`, `math.radians`, `math.degrees`, float `**`) as an abstract
parameter: floats are rationals, so each library routine is some function
`ℚ → ℚ`; all theorems hold for every choice of these functions. -/
structure PyMath where
  cos : ℚ → ℚ
  sin : ℚ → ℚ
  atan2 : ℚ → ℚ → ℚ
  sqrt : ℚ → ℚ
  hypot : ℚ → ℚ → ℚ
  fpow : ℚ → ℚ → ℚ
  radians : ℚ → ℚ
  degrees : ℚ → ℚ

/-- A trivial concrete `PyMath`, used only to instantiate witnesses. -/
def M0 : PyMath where
  cos := fun _ => 0
  sin := fun _ => 0
  atan2 := fun _ _ => 0
  sqrt := fun _ => 0
  hypot := fun _ _ => 0
  fpow := fun _ _ => 0
  radians := fun _ => 0
  degrees := fun _ => 0

/-- model.py lines 12-46: the `Flight` dataclass (field `_last_heading` is
`last_heading` here; random factory defaults are supplied by the caller). -/
structure Flight where
  icao : String
  callsign : String
  lat : ℚ
  lon : ℚ
  altitude : ℚ
  speed : ℚ
  heading : ℚ
  vrate : ℚ
  anomaly : Option String
  trail : List (ℚ × ℚ)
  bank_deg : ℚ
  turn_rate_dps : ℚ
  baro_altitude : ℚ
  qnh_hpa : ℚ
  squawk : String
  nic : ℤ
  nacp : ℤ
  sil : ℤ
  on_ground : Bool
  last_heading : ℚ
  route : List (ℚ × ℚ)
  wp_index : ℕ
  vnav_target_alt : Option ℚ
  ac_type : String
  max_bank_deg : ℚ
  max_turn_rate_dps : ℚ
  gs_knots : ℚ

/-- `collections.deque(maxlen=cap).append`: append and evict the oldest
entries past the capacity. -/
def dequeAppend (cap : ℕ) (t : List (ℚ × ℚ)) (x : ℚ × ℚ) : List (ℚ × ℚ) :=
  let t2 := t ++ [x]
  t2.drop (t2.length - cap)

/-- model.py lines 70-77: the LNAV / random-drift heading update; `u` is the
`random.uniform(-1.0, 1.0)` draw of the unguided branch. -/
def stepHeadingUpd (heading max_turn_rate_dps dt : ℚ) (lnav_bearing : Option ℚ)
    (u : ℚ) : ℚ :=
  match lnav_bearing with
  | some b =>
      let diff := pymod (b - heading + 540) 360 - 180
      let max_change := max_turn_rate_dps * dt
      let change := max (-max_change) (min max_change diff)
      pymod (heading + change) 360
  | none => pymod (heading + u) 360

/-- model.py lines 79-88: the VNAV vertical-rate shaping. -/
def stepVrate (vrate altitude : ℚ) (vnav_target_alt : Option ℚ) : ℚ :=
  match vnav_target_alt with
  | some tgt =>
      let delta := tgt - altitude
      if 100 < |delta| then
        let target_vrate : ℚ := 1500 * (if 0 < delta then 1 else -1)
        if |delta| < 1000 then target_vrate * (|delta| / 1000) else target_vrate
      else 0
  | none => vrate

/-- model.py lines 114-119: wrap the heading delta into `(-180, 180]`. -/
def wrapDh (dh : ℚ) : ℚ :=
  if 180 < dh then dh - 360 else if dh < -180 then dh + 360 else dh

/-- model.py lines 59-137: `Flight.step`.  `M` is the float math library,
`u` the `random.uniform(-1.0, 1.0)` draw used when no bearing is commanded. -/
def Flight.step (fl : Flight) (M : PyMath) (dt : ℚ) (wind_dir_deg : Option ℚ)
    (wind_speed_kt : ℚ) (lnav_bearing : Option ℚ) (vnav_target_alt : Option ℚ)
    (u : ℚ) : Flight :=
  let heading := stepHeadingUpd fl.heading fl.max_turn_rate_dps dt lnav_bearing u
  let vrate := stepVrate fl.vrate fl.altitude vnav_target_alt
  let factor : ℚ := 0.00026
  let tas_vx := M.cos (M.radians heading) * fl.speed
  let tas_vy := M.sin (M.radians heading) * fl.speed
  let wind : ℚ × ℚ :=
    match wind_dir_deg with
    | some wd =>
        if wind_speed_kt ≠ 0 then
          let to_dir := pymod (wd + 180) 360
          (M.cos (M.radians to_dir) * wind_speed_kt,
           M.sin (M.radians to_dir) * wind_speed_kt)
        else (0, 0)
    | none => (0, 0)
  let gs_vx := tas_vx + wind.1
  let gs_vy := tas_vy + wind.2
  let gs_knots := M.hypot gs_vx gs_vy
  let dx := gs_vx * factor * dt
  let dy := gs_vy * factor * dt
  let lat := fl.lat + dy
  let lon := fl.lon + dx
  let altitude := fl.altitude + (vrate / 60) * dt
  let turn_rate_raw := wrapDh (heading - fl.last_heading) / max (1e-6) dt
  let turn_rate_dps :=
    max (-fl.max_turn_rate_dps) (min fl.max_turn_rate_dps turn_rate_raw)
  let v_mps := fl.speed * 0.514444
  let omega_rad := M.radians turn_rate_dps
  let g : ℚ := 9.80665
  let bank_raw := M.degrees (M.atan2 (v_mps * omega_rad) g)
  let bank_deg := max (-fl.max_bank_deg) (min fl.max_bank_deg bank_raw)
  let baro_altitude := altitude + (1013.25 - fl.qnh_hpa) * 27
  let on_ground := decide (altitude < 50 ∧ fl.speed < 50)
  let trail := dequeAppend 60 fl.trail (lat, lon)
  { fl with
    heading := heading, vrate := vrate, gs_knots := gs_knots, lat := lat,
    lon := lon, altitude := altitude, turn_rate_dps := turn_rate_dps,
    bank_deg := bank_deg, last_heading := heading,
    baro_altitude := baro_altitude, on_ground := on_ground, trail := trail }

/-- A concrete flight, used only to instantiate witnesses. -/
def fl0 : Flight where
  icao := "AAA111"
  callsign := "IBE1234"
  lat := 40
  lon := -3
  altitude := 10000
  speed := 300
  heading := 90
  vrate := 0
  anomaly := none
  trail := []
  bank_deg := 0
  turn_rate_dps := 0
  baro_altitude := 10000
  qnh_hpa := 1013.25
  squawk := "7000"
  nic := 8
  nacp := 9
  sil := 3
  on_ground := false
  last_heading := 90
  route := []
  wp_index := 0
  vnav_target_alt := none
  ac_type := "A320"
  max_bank_deg := 25
  max_turn_rate_dps := 3
  gs_knots := 300

/-! ## Claim C6 -/

lemma pymod_nonneg (x m : ℚ) (hm : 0 < m) : 0 ≤ pymod x m := by
  unfold pymod
  have h1 : (⌊x / m⌋ : ℚ) ≤ x / m := Int.floor_le _
  have h2 : m * (⌊x / m⌋ : ℚ) ≤ m * (x / m) :=
    mul_le_mul_of_nonneg_left h1 hm.le
  have h3 : m * (x / m) = x := by field_simp
  linarith

lemma pymod_lt (x m : ℚ) (hm : 0 < m) : pymod x m < m := by
  unfold pymod
  have h1 : x / m < (⌊x / m⌋ : ℚ) + 1 := Int.lt_floor_add_one _
  have h2 : m * (x / m) < m * ((⌊x / m⌋ : ℚ) + 1) :=
    mul_lt_mul_of_pos_left h1 hm
  have h3 : m * (x / m) = x := by field_simp
  nlinarith

/-- C6: for every flight, every `dt > 0`, every wind input, every random draw
and with or without a commanded bearing, the heading after `Flight.step` lies
in `[0, 360)`. -/
theorem c6_heading_range (fl : Flight) (M : PyMath) (dt : ℚ) (wd : Option ℚ)
    (ws : ℚ) (lnav vnav : Option ℚ) (u : ℚ) (hdt : 0 < dt) :
    0 ≤ (fl.step M dt wd ws lnav vnav u).heading ∧
    (fl.step M dt wd ws lnav vnav u).heading < 360 := by
  have hproj : (fl.step M dt wd ws lnav vnav u).heading =
      stepHeadingUpd fl.heading fl.max_turn_rate_dps dt lnav u := rfl
  rw [hproj]
  have h360 : (0 : ℚ) < 360 := by norm_num
  cases lnav with
  | none =>
      exact ⟨pymod_nonneg _ _ h360, pymod_lt _ _ h360⟩
  | some b =>
      exact ⟨pymod_nonneg _ _ h360, pymod_lt _ _ h360⟩

/-- C6 witness. -/
theorem c6_heading_range_witness :
    0 ≤ (fl0.step M0 1 none 0 none none 0).heading ∧
    (fl0.step M0 1 none 0 none none 0).heading < 360 :=
  c6_heading_range fl0 M0 1 none 0 none none 0 (by norm_num)

/-! ## Claim C7 -/

/-- The clamp pattern `max(-m, min(m, x))` of model.py lines 121 and 132. -/
lemma abs_clamp_le (m x : ℚ) (hm : 0 ≤ m) : |max (-m) (min m x)| ≤ m := by
  rw [abs_le]
  refine ⟨le_max_left _ _, max_le (by linarith) (min_le_left _ _)⟩

/-- C7: after every `Flight.step` call, the turn rate of the flight is bounded in
absolute value by its `max_turn_rate_dps` limit and its bank angle by its
`max_bank_deg` limit (the limits, fixed at creation from the aircraft-type
catalog, are nonnegative). -/
theorem c7_limits_clamped (fl : Flight) (M : PyMath) (dt : ℚ) (wd : Option ℚ)
    (ws : ℚ) (lnav vnav : Option ℚ) (u : ℚ)
    (h1 : 0 ≤ fl.max_turn_rate_dps) (h2 : 0 ≤ fl.max_bank_deg) :
    |(fl.step M dt wd ws lnav vnav u).turn_rate_dps| ≤ fl.max_turn_rate_dps ∧
    |(fl.step M dt wd ws lnav vnav u).bank_deg| ≤ fl.max_bank_deg := by
  exact ⟨abs_clamp_le _ _ h1, abs_clamp_le _ _ h2⟩

/-- C7 witness. -/
theorem c7_limits_clamped_witness :
    |(fl0.step M0 1 none 0 none none 0).turn_rate_dps| ≤ fl0.max_turn_rate_dps ∧
    |(fl0.step M0 1 none 0 none none 0).bank_deg| ≤ fl0.max_bank_deg :=
  c7_limits_clamped fl0 M0 1 none 0 none none 0 (by norm_num [fl0])
    (by norm_num [fl0])

/-! ## model.py: event snapshots -/

/-- Python 3 `round` on floats: round half to even, here taken exactly on the
rational value. -/
def pyRoundInt (x : ℚ) : ℤ :=
  let f := ⌊x⌋
  let r := x - f
  if r < 1 / 2 then f
  else if 1 / 2 < r then f + 1
  else if f % 2 = 0 then f else f + 1

/-- `round(x, n)`. -/
def pyRound (x : ℚ) (n : ℕ) : ℚ := (pyRoundInt (x * 10 ^ n) : ℚ) / 10 ^ n

/-- The event dictionary built by `Flight.snapshot` (model.py lines 158-182). -/
structure Event where
  timestamp : String
  icao : String
  callsign : String
  lat : ℚ
  lon : ℚ
  altitude : ℚ
  speed_knots : ℚ
  gs_knots : ℚ
  heading : ℚ
  vertical_rate : ℚ
  baro_altitude : ℚ
  ias_knots : ℚ
  mach : ℚ
  bank_deg : ℚ
  turn_rate_dps : ℚ
  qnh_hpa : ℚ
  nic : ℤ
  nacp : ℤ
  sil : ℤ
  squawk : String
  on_ground : Bool
  anomaly : Option String
  source : String

/-- model.py lines 146-149: the two-layer ISA temperature at `alt_m` metres. -/
def isaT (alt_m : ℚ) : ℚ :=
  if alt_m ≤ 11000 then 288.15 - 0.0065 * alt_m else 288.15 - 0.0065 * 11000

/-- model.py lines 141-157: the atmospheric derivation inside `Flight.snapshot`
producing `(mach, ias_knots)` from the altitude (ft) and true airspeed (kt). -/
def atmoDerive (altitude speed : ℚ) (M : PyMath) : ℚ × ℚ :=
  let alt_m := max 0 (altitude * 0.3048)
  let T0 : ℚ := 288.15
  let L : ℚ := 0.0065
  let R : ℚ := 287.052
  let gamma : ℚ := 1.4
  let T := isaT alt_m
  let a := M.sqrt (gamma * R * T)
  let tas_ms := speed * 0.514444
  let mach := max 0 (tas_ms / max (1e-6) a)
  let expo := 9.80665 / (L * R) - 1
  let sigma := M.fpow (T / T0) expo
  let ias_ms := tas_ms * M.sqrt (max 0.1 sigma)
  let ias_knots := ias_ms / 0.514444
  (mach, ias_knots)

/-- model.py lines 139-182: `Flight.snapshot`; `ts` is the `now_iso()` value. -/
def Flight.snapshot (fl : Flight) (M : PyMath) (ts : String) : Event :=
  let d := atmoDerive fl.altitude fl.speed M
  { timestamp := ts
    icao := fl.icao
    callsign := fl.callsign
    lat := pyRound fl.lat 6
    lon := pyRound fl.lon 6
    altitude := pyRound fl.altitude 1
    speed_knots := pyRound fl.speed 1
    gs_knots := pyRound fl.gs_knots 1
    heading := pyRound fl.heading 1
    vertical_rate := pyRound fl.vrate 1
    baro_altitude := pyRound fl.baro_altitude 1
    ias_knots := pyRound d.2 1
    mach := pyRound d.1 3
    bank_deg := pyRound fl.bank_deg 1
    turn_rate_dps := pyRound fl.turn_rate_dps 2
    qnh_hpa := pyRound fl.qnh_hpa 1
    nic := fl.nic
    nacp := fl.nacp
    sil := fl.sil
    squawk := fl.squawk
    on_ground := fl.on_ground
    anomaly := fl.anomaly
    source := "simulator" }

/-! ## anomalies.py: the injector handlers (each returns the mutated
`(event, flight)` pair; random draws are explicit arguments) -/

/-- anomalies.py lines 9-11: `a_alt_neg`. -/
def a_alt_neg (evt : Event) (fl : Flight) : Event × Flight :=
  ({ evt with altitude := -|evt.altitude| }, { fl with anomaly := some "ALT<0" })

/-- anomalies.py lines 14-16: `a_speed_impossible`; `rs` is the
`random.uniform(1500, 3000)` draw. -/
def a_speed_impossible (evt : Event) (fl : Flight) (rs : ℚ) : Event × Flight :=
  ({ evt with speed_knots := rs }, { fl with anomaly := some "SPD>1500" })

/-- anomalies.py lines 19-21: `a_dup_icao`. -/
def a_dup_icao (evt : Event) (fl : Flight) (dup_with : String) : Event × Flight :=
  ({ evt with icao := dup_with }, { fl with anomaly := some "DUP ICAO" })

/-- anomalies.py lines 24-30: `a_teleport`; `rlat` and `rlon` are the
`random.uniform(-60, 80)` and `random.uniform(-180, 180)` draws. -/
def a_teleport (evt : Event) (fl : Flight) (rlat rlon : ℚ) : Event × Flight :=
  ({ evt with lat := rlat, lon := rlon },
   { fl with lat := rlat, lon := rlon, trail := [], anomaly := some "TELEPORT" })

/-- A concrete event, used only for counterexamples and witnesses. -/
def evt0 : Event where
  timestamp := "2025-01-01T00:00:00+00:00"
  icao := "AAA111"
  callsign := "IBE1234"
  lat := 40
  lon := -3
  altitude := 10000
  speed_knots := 300
  gs_knots := 300
  heading := 90
  vertical_rate := 0
  baro_altitude := 10000
  ias_knots := 280
  mach := 0.5
  bank_deg := 0
  turn_rate_dps := 0
  qnh_hpa := 1013.25
  nic := 8
  nacp := 9
  sil := 3
  squawk := "7000"
  on_ground := false
  anomaly := none
  source := "simulator"

/-! ## Claim C3 -/

/-- C3 counterexample: after a duplicate-identity injection with victim
identifier "BBB222" on a flight whose own identifier is "AAA111", the event
carries the victim identifier but the stored identifier of the flight is unchanged,
so the two differ — the claimed equality fails. -/
theorem c3_dup_icao_counterexample :
    ¬ (a_dup_icao evt0 fl0 "BBB222").2.icao = (a_dup_icao evt0 fl0 "BBB222").1.icao := by
  show ¬ fl0.icao = "BBB222"
  decide

/-- C3 (amended): every injected fault corrupts the outgoing event — the
negative-altitude fault overwrites the event altitude with its negated
absolute value, the impossible-speed fault overwrites the event speed with
the random out-of-envelope draw, the teleport fault overwrites the event
position with the random coordinate, and the duplicate-identity fault
overwrites the event identifier with the victim identifier — and every fault
tags the flight; for the position fault (teleport) the persistent position of
the flight is also corrupted to match the injected event and the trail is
cleared, so subsequent ticks remain consistent with it; the identity fault
writes the victim identifier only into the event, leaving the stored
identifier of the flight unchanged (and the altitude and speed faults leave
the corresponding flight fields unchanged as well). -/
theorem c3_injection_persistence_amended (evt : Event) (fl : Flight)
    (dup : String) (rs rlat rlon : ℚ) :
    ((a_alt_neg evt fl).1.altitude = -|evt.altitude| ∧
     (a_alt_neg evt fl).2.anomaly = some "ALT<0" ∧
     (a_alt_neg evt fl).2.altitude = fl.altitude) ∧
    ((a_speed_impossible evt fl rs).1.speed_knots = rs ∧
     (a_speed_impossible evt fl rs).2.anomaly = some "SPD>1500" ∧
     (a_speed_impossible evt fl rs).2.speed = fl.speed) ∧
    ((a_teleport evt fl rlat rlon).1.lat = rlat ∧
     (a_teleport evt fl rlat rlon).1.lon = rlon ∧
     (a_teleport evt fl rlat rlon).2.lat = (a_teleport evt fl rlat rlon).1.lat ∧
     (a_teleport evt fl rlat rlon).2.lon = (a_teleport evt fl rlat rlon).1.lon ∧
     (a_teleport evt fl rlat rlon).2.trail = [] ∧
     (a_teleport evt fl rlat rlon).2.anomaly = some "TELEPORT") ∧
    ((a_dup_icao evt fl dup).1.icao = dup ∧
     (a_dup_icao evt fl dup).2.icao = fl.icao ∧
     (a_dup_icao evt fl dup).2.anomaly = some "DUP ICAO") := by
  refine ⟨⟨rfl, rfl, rfl⟩, ⟨rfl, rfl, rfl⟩, ⟨rfl, rfl, rfl, rfl, rfl, rfl⟩,
    rfl, rfl, rfl⟩

/-! ## Claim C8 -/

lemma dequeAppend_length_le (t : List (ℚ × ℚ)) (x : ℚ × ℚ) :
    (dequeAppend 60 t x).length ≤ 60 := by
  simp only [dequeAppend, List.length_drop, List.length_append]
  omega

/-- C8: the trail of a flight never exceeds 60 entries after a `Flight.step`
(whatever the incoming trail was, the oldest sample being evicted on
overflow), and immediately after a teleport injection the trail has length 0
and the position has been replaced by the injected coordinate, which lies in
latitude range `[-60, 80]` and longitude range `[-180, 180]`. -/
theorem c8_trail_teleport (fl : Flight) (M : PyMath) (dt : ℚ) (wd : Option ℚ)
    (ws : ℚ) (lnav vnav : Option ℚ) (u : ℚ) (evt : Event) (rlat rlon : ℚ)
    (ha : -60 ≤ rlat) (hb : rlat ≤ 80) (hc : -180 ≤ rlon) (hd : rlon ≤ 180) :
    (fl.step M dt wd ws lnav vnav u).trail.length ≤ 60 ∧
    (a_teleport evt fl rlat rlon).2.trail.length = 0 ∧
    (a_teleport evt fl rlat rlon).2.lat = rlat ∧
    (a_teleport evt fl rlat rlon).2.lon = rlon ∧
    (-60 ≤ (a_teleport evt fl rlat rlon).2.lat ∧
      (a_teleport evt fl rlat rlon).2.lat ≤ 80) ∧
    (-180 ≤ (a_teleport evt fl rlat rlon).2.lon ∧
      (a_teleport evt fl rlat rlon).2.lon ≤ 180) := by
  have hstep : (fl.step M dt wd ws lnav vnav u).trail =
      dequeAppend 60 fl.trail
        ((fl.step M dt wd ws lnav vnav u).lat, (fl.step M dt wd ws lnav vnav u).lon) := rfl
  refine ⟨?_, rfl, rfl, rfl, ⟨ha, hb⟩, ⟨hc, hd⟩⟩
  rw [hstep]
  exact dequeAppend_length_le _ _

/-- C8 witness. -/
theorem c8_trail_teleport_witness :
    (fl0.step M0 1 none 0 none none 0).trail.length ≤ 60 ∧
    (a_teleport evt0 fl0 10 20).2.trail.length = 0 ∧
    (a_teleport evt0 fl0 10 20).2.lat = 10 ∧
    (a_teleport evt0 fl0 10 20).2.lon = 20 ∧
    (-60 ≤ (a_teleport evt0 fl0 10 20).2.lat ∧
      (a_teleport evt0 fl0 10 20).2.lat ≤ 80) ∧
    (-180 ≤ (a_teleport evt0 fl0 10 20).2.lon ∧
      (a_teleport evt0 fl0 10 20).2.lon ≤ 180) :=
  c8_trail_teleport fl0 M0 1 none 0 none none 0 evt0 10 20
    (by norm_num) (by norm_num) (by norm_num) (by norm_num)

/-! ## Claim C9 -/

lemma mach_mono_aux (c d t1 t2 : ℚ) (hc : 0 < c) (hd : 0 < d) (h0 : 0 ≤ t1)
    (h : t1 < t2) : max 0 (t1 * c / d) < max 0 (t2 * c / d) := by
  have h1 : 0 ≤ t1 * c / d := div_nonneg (mul_nonneg h0 hc.le) hd.le
  have h2 : t1 * c / d < t2 * c / d :=
    (div_lt_div_iff_of_pos_right hd).mpr (mul_lt_mul_of_pos_right h hc)
  rw [max_eq_right h1, max_eq_right (le_of_lt (lt_of_le_of_lt h1 h2))]
  exact h2

/-- C9: at fixed altitude, the Mach number produced by the atmospheric
derivation of `Flight.snapshot` is strictly increasing in the (nonnegative)
true airspeed, for every float math library. -/
theorem c9_mach_strict_mono (M : PyMath) (alt tas1 tas2 : ℚ)
    (h0 : 0 ≤ tas1) (h12 : tas1 < tas2) :
    (atmoDerive alt tas1 M).1 < (atmoDerive alt tas2 M).1 := by
  have hd : (0 : ℚ) <
      max (1e-6) (M.sqrt (1.4 * 287.052 * isaT (max 0 (alt * 0.3048)))) :=
    lt_of_lt_of_le (by norm_num) (le_max_left _ _)
  exact mach_mono_aux 0.514444 _ tas1 tas2 (by norm_num) hd h0 h12

/-- C9 witness. -/
theorem c9_mach_strict_mono_witness :
    (atmoDerive 0 100 M0).1 < (atmoDerive 0 200 M0).1 :=
  c9_mach_strict_mono M0 0 100 200 (by norm_num) (by norm_num)

/-! ## app.py: anomaly detection and severity classification -/

/-- Does `needle` occur at the start of `hay`? (helper for the Python `in` test). -/
def listStarts : List Char → List Char → Bool
  | _, [] => true
  | [], _ :: _ => false
  | h :: hs, n :: ns => h == n && listStarts hs ns

/-- The Python substring test `needle in hay`, on the character lists. -/
def listHasSub : List Char → List Char → Bool
  | [], needle => listStarts [] needle
  | h :: hs, needle => listStarts (h :: hs) needle || listHasSub hs needle

/-- The Python test `tok in text` on strings. -/
def strContains (text tok : String) : Bool := listHasSub text.data tok.data

/-- The Python expression `";".join(tags)`. -/
def joinTags : List String → String
  | [] => ""
  | [t] => t
  | t :: t2 :: ts => t ++ ";" ++ joinTags (t2 :: ts)

/-- The two severity levels returned by `_severity_of` ("warn" / "critical"). -/
inductive Severity where
  | warn : Severity
  | critical : Severity
deriving DecidableEq

/-- app.py line 317. -/
def crit_tokens : List String := ["EMERGENCY", "LOW_IAS_HIGH_ALT", "VRATE_ABN"]

/-- app.py lines 318-327. -/
def warn_tokens : List String :=
  ["250@10k", "ALT_MISMATCH", "LOW_QOS", "SPEED_JUMP", "ALT<0", "SPD>1500",
   "DUP ICAO", "TELEPORT"]

/-- app.py lines 314-334: `_severity_of`; empty text yields no severity,
any critical token contained in the text yields critical, otherwise warn
(the warning-token scan and the fall-through both return warn). -/
def severity_of (anomaly_text : String) : Option Severity :=
  if anomaly_text = "" then none
  else if crit_tokens.any (fun t => strContains anomaly_text t) then
    some Severity.critical
  else if warn_tokens.any (fun t => strContains anomaly_text t) then
    some Severity.warn
  else some Severity.warn

/-- app.py lines 336-353: the detector rule list applied to the current event
and the previously cached event for the same identifier, in source order. -/
def detect (evt : Event) (last : Option Event) : List String :=
  (if evt.baro_altitude < 10000 ∧ 260 < evt.ias_knots then ["250@10k"] else [])
  ++ (if 6000 < |evt.vertical_rate| then ["VRATE_ABN"] else [])
  ++ (if 400 < |evt.altitude - evt.baro_altitude| then ["ALT_MISMATCH"] else [])
  ++ (if 20000 < evt.altitude ∧ evt.ias_knots < 140 then ["LOW_IAS_HIGH_ALT"] else [])
  ++ (if evt.nic < 5 ∨ evt.nacp < 7 ∨ evt.sil < 2 then ["LOW_QOS"] else [])
  ++ (if evt.squawk = "7500" ∨ evt.squawk = "7600" ∨ evt.squawk = "7700" then
        ["EMERGENCY"] else [])
  ++ (match last with
      | some l => if 180 < |evt.speed_knots - l.speed_knots| then ["SPEED_JUMP"] else []
      | none => [])

/-- app.py lines 354-357: when at least one rule matched, the semicolon-joined
tag is written to both the event and the flight. -/
def detect_and_mark_anomalies (fl : Flight) (evt : Event) (last : Option Event) :
    Event × Flight :=
  let anomalies := detect evt last
  if anomalies = [] then (evt, fl)
  else
    let tag := joinTags anomalies
    ({ evt with anomaly := some tag }, { fl with anomaly := some tag })

/-! ## Claim C5 -/

lemma listStarts_nil (hay : List Char) : listStarts hay [] = true := by
  cases hay <;> rfl

lemma listStarts_append_self : ∀ (n rest : List Char), listStarts (n ++ rest) n = true
  | [], rest => by simp [listStarts_nil]
  | c :: ns, rest => by
      simp only [List.cons_append, listStarts, beq_self_eq_true, Bool.true_and]
      exact listStarts_append_self ns rest

lemma listHasSub_of_starts {hay needle : List Char}
    (h : listStarts hay needle = true) : listHasSub hay needle = true := by
  cases hay with
  | nil => exact h
  | cons c hs => simp [listHasSub, h]

lemma listHasSub_append_left : ∀ (pre hay needle : List Char),
    listHasSub hay needle = true → listHasSub (pre ++ hay) needle = true
  | [], hay, needle, h => h
  | p :: ps, hay, needle, h => by
      simp only [List.cons_append, listHasSub, Bool.or_eq_true]
      exact Or.inr (listHasSub_append_left ps hay needle h)

lemma listHasSub_self_append (n rest : List Char) :
    listHasSub (n ++ rest) n = true :=
  listHasSub_of_starts (listStarts_append_self n rest)

/-- Any member of a tag list occurs as a substring of the semicolon-joined tag. -/
lemma contains_joinTags_of_mem : ∀ (l : List String) (s : String), s ∈ l →
    listHasSub (joinTags l).data s.data = true := by
  intro l
  induction l with
  | nil => intro s h; cases h
  | cons t rest ih =>
      intro s h
      cases rest with
      | nil =>
          rcases List.mem_singleton.mp h with rfl
          have := listHasSub_self_append s.data []
          simpa using this
      | cons t2 ts =>
          rcases List.mem_cons.mp h with rfl | h2
          · show listHasSub ((s ++ ";" ++ joinTags (t2 :: ts)).data) s.data = true
            have hd : (s ++ ";" ++ joinTags (t2 :: ts)).data =
                (s.data ++ (";").data) ++ (joinTags (t2 :: ts)).data := rfl
            rw [hd, List.append_assoc]
            exact listHasSub_self_append _ _
          · show listHasSub ((t ++ ";" ++ joinTags (t2 :: ts)).data) s.data = true
            have hd : (t ++ ";" ++ joinTags (t2 :: ts)).data =
                (t.data ++ (";").data) ++ (joinTags (t2 :: ts)).data := rfl
            rw [hd]
            exact listHasSub_append_left _ _ _ (ih s h2)

/-- A string containing the nonempty token "EMERGENCY" is not empty. -/
lemma ne_empty_of_contains_emergency {txt : String}
    (h : listHasSub txt.data ("EMERGENCY").data = true) : txt ≠ "" := by
  intro he
  subst he
  exact absurd h (by decide)

/-- Any anomaly text containing "EMERGENCY" is classified critical. -/
lemma severity_critical_of_contains (txt : String)
    (h : listHasSub txt.data ("EMERGENCY").data = true) :
    severity_of txt = some Severity.critical := by
  unfold severity_of
  rw [if_neg (ne_empty_of_contains_emergency h)]
  have hany : crit_tokens.any (fun t => strContains txt t) = true := by
    simp only [crit_tokens, List.any_cons, Bool.or_eq_true]
    exact Or.inl h
  rw [if_pos hany]

/-- C5: every event whose squawk is "7700" gets the tag "EMERGENCY" from the
detector, and the severity classifier applied to the semicolon-joined anomaly
string of that event returns critical. -/
theorem c5_emergency_critical (evt : Event) (last : Option Event)
    (h : evt.squawk = "7700") :
    "EMERGENCY" ∈ detect evt last ∧
    severity_of (joinTags (detect evt last)) = some Severity.critical := by
  have hm : "EMERGENCY" ∈ detect evt last := by
    unfold detect
    have hcond : evt.squawk = "7500" ∨ evt.squawk = "7600" ∨ evt.squawk = "7700" :=
      Or.inr (Or.inr h)
    rw [if_pos hcond]
    simp
  exact ⟨hm, severity_critical_of_contains _ (contains_joinTags_of_mem _ _ hm)⟩

/-- C5 witness: the concrete event with squawk "7700". -/
theorem c5_emergency_critical_witness :
    "EMERGENCY" ∈ detect { evt0 with squawk := "7700" } none ∧
    severity_of (joinTags (detect { evt0 with squawk := "7700" } none)) =
      some Severity.critical :=
  c5_emergency_critical { evt0 with squawk := "7700" } none rfl

/-! ## app.py: the per-flight slice of `_tick` (lines 232-252) -/

/-- The anomaly kinds of the `ANOMAP` dispatch table (anomalies.py lines 33-38). -/
inductive InjectChoice where
  | alt_neg : InjectChoice
  | speed_impossible : InjectChoice
  | dup_icao : InjectChoice
  | teleport : InjectChoice

/-- app.py lines 241-249: the (possibly absent) injection for this flight on
this tick; `none` models the cooldown / probability gate not firing.  `dupT`
is the victim identifier fixed at start, `rs`, `rlat`, `rlon` the random draws of the handlers. -/
def applyInjOpt (inj : Option InjectChoice) (evt : Event) (fl : Flight)
    (dupT : String) (rs rlat rlon : ℚ) : Event × Flight :=
  match inj with
  | none => (evt, fl)
  | some InjectChoice.alt_neg => a_alt_neg evt fl
  | some InjectChoice.speed_impossible => a_speed_impossible evt fl rs
  | some InjectChoice.dup_icao => a_dup_icao evt fl dupT
  | some InjectChoice.teleport => a_teleport evt fl rlat rlon

/-- app.py lines 232-249: step the flight, reset its anomaly tag, build the
snapshot event, then apply the injection stage. -/
def tickSnapshotInj (fl : Flight) (M : PyMath) (dt : ℚ) (wd : Option ℚ)
    (ws : ℚ) (lnav vnav : Option ℚ) (u : ℚ) (ts : String)
    (inj : Option InjectChoice) (dupT : String) (rs rlat rlon : ℚ) :
    Event × Flight :=
  let flS := fl.step M dt wd ws lnav vnav u
  let fl1 : Flight := { flS with anomaly := none }
  let evt := fl1.snapshot M ts
  applyInjOpt inj evt fl1 dupT rs rlat rlon

/-- app.py lines 232-252: the full per-flight processing of one tick,
ending with the detector pass. -/
def processFlight (fl : Flight) (M : PyMath) (dt : ℚ) (wd : Option ℚ)
    (ws : ℚ) (lnav vnav : Option ℚ) (u : ℚ) (ts : String)
    (inj : Option InjectChoice) (dupT : String) (rs rlat rlon : ℚ)
    (last : Option Event) : Event × Flight :=
  let p := tickSnapshotInj fl M dt wd ws lnav vnav u ts inj dupT rs rlat rlon
  detect_and_mark_anomalies p.2 p.1 last

/-! ## Claim C10 -/

/-- C10: on every tick the anomaly tag of the flight is reset before the snapshot is
built, so the event reaching the detector has an empty anomaly field whatever
injection ran (injection handlers never write the anomaly field of the event);
the anomaly field of the emitted event is non-empty exactly when at least one detector
rule matches, in which case the semicolon-joined detector tag also overwrites
any injector tag on the flight. -/
theorem c10_anomaly_field_discipline (fl : Flight) (M : PyMath) (dt : ℚ)
    (wd : Option ℚ) (ws : ℚ) (lnav vnav : Option ℚ) (u : ℚ) (ts : String)
    (inj : Option InjectChoice) (dupT : String) (rs rlat rlon : ℚ)
    (last : Option Event) :
    (tickSnapshotInj fl M dt wd ws lnav vnav u ts inj dupT rs rlat rlon).1.anomaly
      = none ∧
    (detect (tickSnapshotInj fl M dt wd ws lnav vnav u ts inj dupT rs rlat rlon).1
        last = [] →
      (processFlight fl M dt wd ws lnav vnav u ts inj dupT rs rlat rlon last).1.anomaly
        = none) ∧
    (detect (tickSnapshotInj fl M dt wd ws lnav vnav u ts inj dupT rs rlat rlon).1
        last ≠ [] →
      (processFlight fl M dt wd ws lnav vnav u ts inj dupT rs rlat rlon last).1.anomaly
        = some (joinTags (detect
            (tickSnapshotInj fl M dt wd ws lnav vnav u ts inj dupT rs rlat rlon).1 last)) ∧
      (processFlight fl M dt wd ws lnav vnav u ts inj dupT rs rlat rlon last).2.anomaly
        = some (joinTags (detect
            (tickSnapshotInj fl M dt wd ws lnav vnav u ts inj dupT rs rlat rlon).1 last))) := by
  have hanom : (tickSnapshotInj fl M dt wd ws lnav vnav u ts inj dupT rs rlat
      rlon).1.anomaly = none := by
    cases inj with
    | none => rfl
    | some c => cases c <;> rfl
  refine ⟨hanom, ?_, ?_⟩
  · intro hdet
    show (detect_and_mark_anomalies _ _ last).1.anomaly = none
    rw [detect_and_mark_anomalies, hdet]
    simpa using hanom
  · intro hdet
    show (detect_and_mark_anomalies _ _ last).1.anomaly = _ ∧
      (detect_and_mark_anomalies _ _ last).2.anomaly = _
    rw [detect_and_mark_anomalies]
    simp only [if_neg hdet]
    refine ⟨?_, ?_⟩ <;> first | rfl | trivial

/-- C10 witness: on a concrete flight with a teleport injection, the event
handed to the detector still carries no anomaly tag. -/
theorem c10_anomaly_field_discipline_witness :
    (tickSnapshotInj fl0 M0 1 none 0 none none 0 "t"
        (some InjectChoice.teleport) "X" 0 10 20).1.anomaly = none :=
  (c10_anomaly_field_discipline fl0 M0 1 none 0 none none 0 "t"
      (some InjectChoice.teleport) "X" 0 10 20 none).1

end AdsbAtc
